import Mathlib

/-!
Verification development for the Kyros lead-lifecycle orchestration core.

The definitions below are a shallow embedding of the TypeScript sources:
  * `src/agent-runtime/state-machine/leadStateMachine.ts`
  * `src/agent-runtime/services/leadStorage.ts` (lead store + language service)
  * `src/agent-runtime/services/appointmentService.ts`
  * `src/agent-runtime/workflows/smsAppointmentWorkflow.ts`

Modelling conventions:
  * Timestamps (`Date`) are `Nat` milliseconds; `generateId()` values are
    produced from an explicit counter threaded through the workflow state
    (`World.counter`), since the ids are opaque strings whose exact values
    never matter to the code's control flow.
  * `Record<string, unknown>` metadata bags are association lists
    `List (String × String)`; a JS object spread `{...m, k: v}` appends the
    pair and lookups take the last binding for a key (`mdGet`).
  * TS methods mutate the `Lead` object held by `LeadStateMachine` in place;
    here every such function returns the updated lead.  The in-memory lead
    store keeps the *same object* it handed out (`leads.get(id)` returns the
    live reference), so an in-place mutation is visible in the store until a
    store operation (`update`/`addContactAttempt`) replaces the stored entry
    with a fresh copy, after which the workflow's local object is detached.
    The workflow functions below thread the store explicitly and perform a
    store write exactly where the TS aliasing makes a mutation visible.
  * JS object spread `{...stored, ...updates}` copies the keys present on
    `updates`.  A full `Lead` object carries every field written by the state
    machine, so `updateLead(id, stateMachine.getLead())` is modelled as
    replacing the stored record wholesale (with a fresh `updatedAt`).  The
    optional appointment fields are modelled as `Option`, with JS `undefined`
    and an absent key both `none`; the only behavioural difference (retention
    of a just-stored `proposedSlots` across a subsequent whole-lead write
    when the local object never carried the key) does not affect any
    statement proved in this file.
  * `smsService.ts` is referenced by the workflow but its source is not in
    the repository snapshot; it is modelled from the spec (§4.4), see
    `sendSms` below.
-/

namespace Kyros

/-- The 15 lead lifecycle states (`LeadState` in `types/index.ts`). -/
inductive LeadState where
  | new
  | consent_pending
  | consent_verified
  | contact_scheduled
  | initial_contact_sent
  | awaiting_response
  | response_received
  | interested
  | appointment_proposed
  | appointment_confirmed
  | appointment_completed
  | not_interested
  | opted_out
  | failed
  | escalated
deriving DecidableEq, Repr

/-- The snake_case string of a state, as used in TS template literals. -/
def leadStateName : LeadState → String
  | .new => "new"
  | .consent_pending => "consent_pending"
  | .consent_verified => "consent_verified"
  | .contact_scheduled => "contact_scheduled"
  | .initial_contact_sent => "initial_contact_sent"
  | .awaiting_response => "awaiting_response"
  | .response_received => "response_received"
  | .interested => "interested"
  | .appointment_proposed => "appointment_proposed"
  | .appointment_confirmed => "appointment_confirmed"
  | .appointment_completed => "appointment_completed"
  | .not_interested => "not_interested"
  | .opted_out => "opted_out"
  | .failed => "failed"
  | .escalated => "escalated"

/-- One row of the transition table (`StateTransition` in `types/index.ts`). -/
structure StateTransition where
  fromState : LeadState
  toState : LeadState
  trigger : String
deriving DecidableEq, Repr

/-- The fixed transition table `STATE_TRANSITIONS` of `leadStateMachine.ts`. -/
def STATE_TRANSITIONS : List StateTransition := [
  -- Initial states
  ⟨.new, .consent_pending, "request_consent"⟩,
  ⟨.new, .consent_verified, "consent_already_verified"⟩,
  -- Consent flow
  ⟨.consent_pending, .consent_verified, "consent_received"⟩,
  ⟨.consent_pending, .opted_out, "consent_declined"⟩,
  ⟨.consent_pending, .failed, "consent_timeout"⟩,
  -- Contact scheduling
  ⟨.consent_verified, .contact_scheduled, "schedule_contact"⟩,
  -- Initial contact
  ⟨.contact_scheduled, .initial_contact_sent, "send_initial_sms"⟩,
  ⟨.initial_contact_sent, .awaiting_response, "await_response"⟩,
  -- Response handling
  ⟨.awaiting_response, .response_received, "receive_response"⟩,
  ⟨.awaiting_response, .contact_scheduled, "schedule_retry"⟩,
  ⟨.awaiting_response, .failed, "max_attempts_reached"⟩,
  -- Response classification outcomes
  ⟨.response_received, .interested, "classify_interested"⟩,
  ⟨.response_received, .not_interested, "classify_not_interested"⟩,
  ⟨.response_received, .opted_out, "classify_stop"⟩,
  ⟨.response_received, .awaiting_response, "classify_question"⟩,
  -- Appointment flow
  ⟨.interested, .appointment_proposed, "propose_appointment"⟩,
  ⟨.appointment_proposed, .awaiting_response, "await_confirmation"⟩,
  ⟨.appointment_proposed, .appointment_confirmed, "confirm_appointment"⟩,
  ⟨.appointment_proposed, .interested, "reschedule_requested"⟩,
  ⟨.appointment_confirmed, .appointment_completed, "complete_appointment"⟩,
  ⟨.appointment_confirmed, .interested, "appointment_cancelled"⟩,
  -- Opt-out (can happen from almost any state)
  ⟨.initial_contact_sent, .opted_out, "opt_out_received"⟩,
  ⟨.awaiting_response, .opted_out, "opt_out_received"⟩,
  ⟨.response_received, .opted_out, "opt_out_received"⟩,
  ⟨.interested, .opted_out, "opt_out_received"⟩,
  ⟨.appointment_proposed, .opted_out, "opt_out_received"⟩,
  ⟨.appointment_confirmed, .opted_out, "opt_out_received"⟩,
  -- Escalation
  ⟨.failed, .escalated, "escalate"⟩,
  ⟨.interested, .escalated, "escalate"⟩,
  ⟨.not_interested, .escalated, "escalate"⟩]

/-- Terminal states where no further transitions are allowed. -/
def TERMINAL_STATES : List LeadState :=
  [.appointment_completed, .opted_out, .escalated]

/-- States that block all outbound contact. -/
def CONTACT_BLOCKED_STATES : List LeadState :=
  [.opted_out, .escalated, .failed, .not_interested, .appointment_completed]

/-- Metadata bag (`Record<string, unknown>`), as an association list. -/
abbrev Metadata : Type := List (String × String)

/-- Lookup in a metadata bag; the last binding for a key wins, matching JS
object-spread override semantics. -/
def mdGet (m : Metadata) (k : String) : Option String :=
  (List.find? (fun p => p.1 == k) (List.reverse m)).map (fun p => p.2)

/-- Audit-trail record (`StateChange` in `types/index.ts`). -/
structure StateChange where
  id : String
  fromState : LeadState
  toState : LeadState
  trigger : String
  timestamp : Nat
  metadata : Metadata
deriving DecidableEq, Repr

/-- Message intents (`MessageClassification.intent`). -/
inductive Intent where
  | interested
  | not_now
  | stop
  | question
  | confirm
  | reschedule
  | unknown
deriving DecidableEq, Repr

/-- Extracted fields of a classification. -/
structure ExtractedInfo where
  preferredDay : Option String
  preferredTime : Option String
  reason : Option String
deriving DecidableEq, Repr

/-- Classification result (`MessageClassification` in `types/index.ts`).
The confidence in `[0, 1]` is carried in hundredths (`0.99 ↦ 99`): every
confidence the code produces or compares is a two-decimal literal. -/
structure MessageClassification where
  intent : Intent
  confidence : Nat
  extractedInfo : Option ExtractedInfo
  rawAnalysis : Option String
deriving DecidableEq, Repr

/-- Direction of a contact attempt or SMS message. -/
inductive Direction where
  | outbound
  | inbound
deriving DecidableEq, Repr

/-- Delivery/response status of a contact attempt. -/
inductive AttemptStatus where
  | sent
  | delivered
  | failed
  | responded
deriving DecidableEq, Repr

/-- One outbound or inbound touch (`ContactAttempt` in `types/index.ts`). -/
structure ContactAttempt where
  id : String
  leadId : String
  direction : Direction
  timestamp : Nat
  message : Option String
  status : AttemptStatus
  providerId : Option String
  classification : Option MessageClassification
deriving DecidableEq, Repr

/-- Bookable calendar slot (`AppointmentSlot` in `types/index.ts`). -/
structure AppointmentSlot where
  id : String
  date : Nat
  startTime : String
  endTime : String
  available : Bool
  leadId : Option String
  confirmationSent : Bool
  confirmedAt : Option Nat
deriving DecidableEq, Repr

/-- Lead record (`Lead` in `types/index.ts`). -/
structure Lead where
  id : String
  firstName : String
  lastName : String
  phone : String
  email : Option String
  state : LeadState
  stateHistory : List StateChange
  consentVerified : Bool
  contactAttempts : List ContactAttempt
  lastContactAt : Option Nat
  nextContactAt : Option Nat
  maxContactAttempts : Nat
  appointmentSlot : Option AppointmentSlot
  proposedSlots : Option (List AppointmentSlot)
  source : String
  metadata : Metadata
  createdAt : Nat
  updatedAt : Nat
deriving DecidableEq, Repr

/-! ## Lead state machine (`leadStateMachine.ts`) -/

/-- `LeadStateMachine.canTransition`: false from any terminal state, else
true iff the transition table has a row for (current state, trigger). -/
def canTransition (state : LeadState) (trigger : String) : Bool :=
  if TERMINAL_STATES.contains state then
    false
  else
    STATE_TRANSITIONS.any fun t => t.fromState == state && t.trigger == trigger

/-- `LeadStateMachine.getTargetState`: target of the first table row matching
(current state, trigger). -/
def getTargetState (state : LeadState) (trigger : String) : Option LeadState :=
  (STATE_TRANSITIONS.find? fun t => t.fromState == state && t.trigger == trigger).map
    (fun t => t.toState)

/-- `LeadStateMachine.transition`: null (and the lead unchanged) unless
`canTransition` holds; otherwise appends a `StateChange` and moves the lead.
`scId`/`now` stand for `generateId()` and `new Date()`. -/
def transition (lead : Lead) (trigger : String) (metadata : Metadata)
    (scId : String) (now : Nat) : Option StateChange × Lead :=
  if canTransition lead.state trigger then
    match getTargetState lead.state trigger with
    | none => (none, lead)
    | some target =>
      let sc : StateChange :=
        { id := scId, fromState := lead.state, toState := target,
          trigger := trigger, timestamp := now, metadata := metadata }
      (some sc,
       { lead with state := target,
                   stateHistory := lead.stateHistory ++ [sc],
                   updatedAt := now })
  else
    (none, lead)

/-- `LeadStateMachine.forceTransition`: unconditionally moves the lead to
`newState`, recording trigger `"forced:" ++ trigger` and metadata extended
with `forced: true`. -/
def forceTransition (lead : Lead) (newState : LeadState) (trigger : String)
    (metadata : Metadata) (scId : String) (now : Nat) : StateChange × Lead :=
  let sc : StateChange :=
    { id := scId, fromState := lead.state, toState := newState,
      trigger := "forced:" ++ trigger, timestamp := now,
      metadata := metadata ++ [("forced", "true")] }
  (sc,
   { lead with state := newState,
               stateHistory := lead.stateHistory ++ [sc],
               updatedAt := now })

/-- `LeadStateMachine.canContact`: true unless the state blocks contact. -/
def canContact (lead : Lead) : Bool :=
  !(CONTACT_BLOCKED_STATES.contains lead.state)

/-- `LeadStateMachine.isTerminal`. -/
def isTerminal (lead : Lead) : Bool :=
  TERMINAL_STATES.contains lead.state

/-! ## Lead store (`leadStorage.ts`)

The store is a `Map<string, Lead>` keyed by id; modelled as a list of leads
with unique ids.  `update`/`addContactAttempt` replace the stored entry with
a fresh object built by object spread. -/

/-- `LeadStorage.getById`. -/
def getById : List Lead → String → Option Lead
  | [], _ => none
  | l :: ls, id => if l.id = id then some l else getById ls id

/-- `LeadStorage.getByPhone` (phone index lookup). -/
def getByPhone : List Lead → String → Option Lead
  | [], _ => none
  | l :: ls, phone => if l.phone = phone then some l else getByPhone ls phone

/-- Replace the stored entry for `lead.id` by `lead` (the effect of a
`Map.set` keyed by id, and of `update(id, fullLead)`, which copies every
field of the given lead and stamps `updatedAt`). -/
def storeSet (store : List Lead) (lead : Lead) : List Lead :=
  store.map fun l => if l.id = lead.id then lead else l

/-- `LeadStorage.addContactAttempt`: replaces the stored entry with a copy
carrying the appended attempt and updated `lastContactAt`. -/
def storeAddAttempt (store : List Lead) (leadId : String) (attempt : ContactAttempt)
    (now : Nat) : List Lead :=
  store.map fun l =>
    if l.id = leadId then
      { l with contactAttempts := l.contactAttempts ++ [attempt],
               lastContactAt := some attempt.timestamp,
               updatedAt := now }
    else l

/-- `update(id, { nextContactAt })` partial update. -/
def storeSetNextContact (store : List Lead) (leadId : String)
    (nextContactAt : Option Nat) (now : Nat) : List Lead :=
  store.map fun l =>
    if l.id = leadId then
      { l with nextContactAt := nextContactAt, updatedAt := now }
    else l

/-- `update(id, { proposedSlots })` partial update. -/
def storeSetProposedSlots (store : List Lead) (leadId : String)
    (slots : Option (List AppointmentSlot)) (now : Nat) : List Lead :=
  store.map fun l =>
    if l.id = leadId then
      { l with proposedSlots := slots, updatedAt := now }
    else l

/-- `update(id, { appointmentSlot, proposedSlots: undefined })` partial
update used on appointment confirmation. -/
def storeSetAppointment (store : List Lead) (leadId : String)
    (slot : Option AppointmentSlot) (now : Nat) : List Lead :=
  store.map fun l =>
    if l.id = leadId then
      { l with appointmentSlot := slot, proposedSlots := none, updatedAt := now }
    else l

/-- States from which `getReadyForContact` considers a lead contactable. -/
def contactableStates : List LeadState :=
  [.consent_verified, .contact_scheduled, .awaiting_response]

/-- `LeadStorage.getReadyForContact`: contactable state, fewer total contact
attempts than `maxContactAttempts`, and `nextContactAt` not in the future. -/
def getReadyForContact (store : List Lead) (now : Nat) : List Lead :=
  store.filter fun lead =>
    if !(contactableStates.contains lead.state) then false
    else if lead.maxContactAttempts ≤ lead.contactAttempts.length then false
    else
      match lead.nextContactAt with
      | some t => if now < t then false else true
      | none => true

/-! ## Appointment service (`appointmentService.ts`) -/

/-- Result of `CalendarProvider.bookSlot`. -/
structure BookSlotResult where
  success : Bool
  error : Option String
deriving DecidableEq, Repr

/-- `MockCalendarProvider.getSlot`: lookup in the provider's slot map. -/
def getSlot : List AppointmentSlot → String → Option AppointmentSlot
  | [], _ => none
  | s :: ss, slotId => if s.id = slotId then some s else getSlot ss slotId

/-- `MockCalendarProvider.bookSlot`: check-and-set on `available`; a missing
slot or an unavailable slot is rejected, otherwise the slot is bound to the
lead. -/
def bookSlot (slots : List AppointmentSlot) (slotId : String) (leadId : String) :
    BookSlotResult × List AppointmentSlot :=
  match getSlot slots slotId with
  | none => ({ success := false, error := some "Slot not found" }, slots)
  | some slot =>
    if !slot.available then
      ({ success := false, error := some "Slot already booked" }, slots)
    else
      ({ success := true, error := none },
       slots.map fun s =>
         if s.id = slotId then { s with available := false, leadId := some leadId }
         else s)

/-- `MockCalendarProvider.cancelSlot`: frees the slot if present. -/
def cancelSlot (slots : List AppointmentSlot) (slotId : String) :
    Bool × List AppointmentSlot :=
  match getSlot slots slotId with
  | none => (false, slots)
  | some _ =>
    (true,
     slots.map fun s =>
       if s.id = slotId then
         { s with available := true, leadId := none,
                  confirmedAt := none, confirmationSent := false }
       else s)

/-- Result of `AppointmentService.bookAppointment`. -/
structure BookAppointmentResult where
  success : Bool
  slot : Option AppointmentSlot
  error : Option String
deriving DecidableEq, Repr

/-- `AppointmentService.bookAppointment`: rejects an opted-out lead or one
that already holds a confirmed appointment, then performs the provider's
check-and-set and re-reads the slot. -/
def bookAppointment (slots : List AppointmentSlot) (lead : Lead) (slotId : String) :
    BookAppointmentResult × List AppointmentSlot :=
  if lead.state = .opted_out then
    ({ success := false, slot := none, error := some "Lead has opted out" }, slots)
  else if lead.state = .appointment_confirmed then
    ({ success := false, slot := none, error := some "Lead already has an appointment" }, slots)
  else
    let (result, slots') := bookSlot slots slotId lead.id
    if !result.success then
      ({ success := false, slot := none, error := result.error }, slots')
    else
      match getSlot slots' slotId with
      | none => ({ success := false, slot := none, error := some "Slot not found after booking" }, slots')
      | some slot => ({ success := true, slot := some slot, error := none }, slots')

/-- Insertion into a list of slots sorted ascending by date. -/
def insertByDate (s : AppointmentSlot) : List AppointmentSlot → List AppointmentSlot
  | [] => [s]
  | t :: ts => if s.date ≤ t.date then s :: t :: ts else t :: insertByDate s ts

/-- Ascending sort by date (`slots.sort((a, b) => a.date - b.date)`); ties
ordered arbitrarily, which no statement below depends on. -/
def sortByDate : List AppointmentSlot → List AppointmentSlot
  | [] => []
  | s :: ss => insertByDate s (sortByDate ss)

/-- 14 days in milliseconds, the default query window. -/
def fourteenDaysMs : Nat := 14 * 24 * 60 * 60 * 1000

/-- `AppointmentService.getAvailableSlots` with the default window and a
limit: available slots dated within `[now, now + 14d]`, sorted ascending,
truncated to the limit. -/
def getAvailableSlots (slots : List AppointmentSlot) (now : Nat) (limit : Nat) :
    List AppointmentSlot :=
  (sortByDate (slots.filter fun s =>
    s.available && decide (now ≤ s.date) && decide (s.date ≤ now + fourteenDaysMs))).take limit

/-- `toLocaleDateString` rendering of a slot date, abstracted: the locale
formatting is outside the embedding and never branches the logic. -/
def fmtSlotDate (date : Nat) : String :=
  "day " ++ toString date

/-- `AppointmentService.formatSlotsForSms`. -/
def formatSlotsForSms (slots : List AppointmentSlot) : List String :=
  slots.map fun s => fmtSlotDate s.date ++ " at " ++ s.startTime

/-- Split a character list on a separator character (JS `split`). -/
def splitCharAux (sep : Char) : List Char → List Char → List (List Char)
  | [], acc => [acc.reverse]
  | c :: cs, acc =>
    if c = sep then acc.reverse :: splitCharAux sep cs []
    else splitCharAux sep cs (c :: acc)

/-- JS `String.prototype.split` on a single-character separator. -/
def jsSplit (s : String) (sep : Char) : List String :=
  (splitCharAux sep s.data []).map String.mk

/-- The numeric value of a decimal digit. -/
def digitVal? (c : Char) : Option Nat :=
  if c.isDigit then some (c.toNat - '0'.toNat) else none

/-- Decimal numeral parsing over characters. -/
def natOfCharsAux : List Char → Nat → Option Nat
  | [], acc => some acc
  | c :: cs, acc =>
    match digitVal? c with
    | some d => natOfCharsAux cs (acc * 10 + d)
    | none => none

/-- JS `Number(str)` restricted to nonempty decimal numerals; `none` stands
for `NaN` (and for the empty string, which JS maps to `0` — never fed by the
`HH:MM` configuration strings this is applied to). -/
def jsToNat? (s : String) : Option Nat :=
  match s.data with
  | [] => none
  | cs => natOfCharsAux cs 0

/-- `parseHM`: the `"HH:MM".split(':').map(Number)` destructuring, as minutes
since midnight; `none` when a piece is not a numeral (JS would produce `NaN`,
whose comparisons are all false — `isQuietHours` maps `none` to `false`
accordingly). -/
def parseHM (s : String) : Option Nat :=
  match jsSplit s ':' with
  | h :: m :: _ =>
    match jsToNat? h, jsToNat? m with
    | some a, some b => some (a * 60 + b)
    | _, _ => none
  | _ => none

/-- `AppointmentService.isQuietHours`.  `currentMinutes` is the minutes since
midnight of the timestamp rendered in the target timezone (the
`Intl.DateTimeFormat` rendering is outside the embedding). -/
def isQuietHours (currentMinutes : Nat) (quietStart quietEnd : String) : Bool :=
  match parseHM quietStart, parseHM quietEnd with
  | some s, some e =>
    if e < s then
      decide (s ≤ currentMinutes) || decide (currentMinutes < e)
    else
      decide (s ≤ currentMinutes) && decide (currentMinutes < e)
  | _, _ => false

/-- The do-not-contact window stated by the spec: `[quietStart, quietEnd)`,
and when the window spans midnight (start later than end), at-or-after start
or strictly before end.  Written from the spec's words, for comparison with
`isQuietHours`. -/
def quietWindowSpec (currentMinutes s e : Nat) : Prop :=
  if s > e then currentMinutes ≥ s ∨ currentMinutes < e
  else currentMinutes ≥ s ∧ currentMinutes < e

/-! ## SMS service

Modelled from the spec: `smsService.ts` is referenced by the workflow but its
source is not in the repository snapshot.  Per §4.4 of the spec, sending is
refused outright if the lead's state is `opted_out`; every send, successful
or not, is appended to an internal outbound log keyed by lead id; failures
are recorded with a reason and do not throw.  Provider-level delivery is
abstracted by the `deliver` flag.  The template texts are likewise
unspecified; they are modelled as distinct marker strings. -/

/-- Status of a channel log record (`SmsMessage.status` in `types/index.ts`). -/
inductive SmsStatus where
  | pending
  | queued
  | sent
  | delivered
  | failed
  | received
deriving DecidableEq, Repr

/-- Outbound/inbound log record (`SmsMessage` in `types/index.ts`). -/
structure SmsMessage where
  id : String
  leadId : String
  body : String
  direction : Direction
  status : SmsStatus
  failureReason : Option String
deriving DecidableEq, Repr

/-- Result of `smsService.sendSms`. -/
structure SendResult where
  success : Bool
  attempt : Option ContactAttempt
  error : Option String
deriving DecidableEq, Repr

/-- Modelled from the spec: `smsService.sendSms` — refuses outright when the
lead is `opted_out` (defense in depth), otherwise the provider outcome is
the `deliver` flag; every send is appended to the outbound log. -/
def sendSms (deliver : Bool) (log : List SmsMessage) (lead : Lead) (body : String)
    (msgId : String) (now : Nat) : SendResult × List SmsMessage :=
  if lead.state = .opted_out then
    ({ success := false, attempt := none, error := some "Lead has opted out" },
     log ++ [{ id := msgId, leadId := lead.id, body := body, direction := .outbound,
               status := .failed, failureReason := some "Lead has opted out" }])
  else if deliver then
    ({ success := true,
       attempt := some { id := msgId, leadId := lead.id, direction := .outbound,
                         timestamp := now, message := some body, status := .sent,
                         providerId := none, classification := none },
       error := none },
     log ++ [{ id := msgId, leadId := lead.id, body := body, direction := .outbound,
               status := .sent, failureReason := none }])
  else
    ({ success := false, attempt := none, error := some "Provider failure" },
     log ++ [{ id := msgId, leadId := lead.id, body := body, direction := .outbound,
               status := .failed, failureReason := some "Provider failure" }])

/-- Modelled from the spec: `smsService.processIncomingMessage` — records the
inbound message in the channel log. -/
def recordInbound (log : List SmsMessage) (leadId : String) (body : String)
    (msgId : String) : List SmsMessage :=
  log ++ [{ id := msgId, leadId := leadId, body := body, direction := .inbound,
            status := .received, failureReason := none }]

/-- The outbound log entries actually delivered to the channel (status
`sent`), used to state "an outbound message was (not) sent". -/
def deliveredOutbound (log : List SmsMessage) : List SmsMessage :=
  log.filter fun m => m.direction == .outbound && m.status == .sent

/-- Modelled from the spec: `SMS_TEMPLATES.initialContact`. -/
def initialContactTemplate (firstName : String) : String :=
  "INITIAL_CONTACT:" ++ firstName

/-- Modelled from the spec: `SMS_TEMPLATES.followUp`. -/
def followUpTemplate (firstName : String) (attemptNumber : Nat) : String :=
  "FOLLOW_UP:" ++ firstName ++ ":" ++ toString attemptNumber

/-- Modelled from the spec: `SMS_TEMPLATES.optOutConfirmation`. -/
def optOutConfirmationTemplate : String :=
  "OPT_OUT_CONFIRMATION"

/-- Modelled from the spec: `SMS_TEMPLATES.appointmentProposal` (formatted
numbered slot list). -/
def appointmentProposalTemplate (firstName : String) (formatted : List String) : String :=
  "APPOINTMENT_PROPOSAL:" ++ firstName ++ ":" ++ String.intercalate "|" formatted

/-- Modelled from the spec: `SMS_TEMPLATES.notInterested`. -/
def notInterestedTemplate (firstName : String) : String :=
  "NOT_INTERESTED:" ++ firstName

/-- Modelled from the spec: `SMS_TEMPLATES.appointmentConfirmation`. -/
def appointmentConfirmationTemplate (firstName date startTime : String) : String :=
  "APPOINTMENT_CONFIRMATION:" ++ firstName ++ ":" ++ date ++ ":" ++ startTime

/-! ## Language service (`LanguageService` in `leadStorage.ts`)

With no API key configured the service uses `mockClassifyResponse`, and the
OpenAI call stub always throws, falling back to the same mock; so
classification is the mock classifier. -/

/-- `message.toLowerCase()` (ASCII, as all keyword tests are ASCII). -/
def jsToLower (s : String) : String :=
  String.mk (s.data.map Char.toLower)

/-- Whitespace for `trim` (the characters relevant to SMS bodies). -/
def isWsp (c : Char) : Bool :=
  c = ' ' || c = '\t' || c = '\n' || c = '\r'

/-- JS `String.prototype.trim`. -/
def jsTrim (s : String) : String :=
  String.mk (((s.data.dropWhile isWsp).reverse.dropWhile isWsp).reverse)

/-- JS `String.prototype.startsWith`. -/
def jsStartsWith (s pre : String) : Bool :=
  pre.data.isPrefixOf s.data

/-- Substring occurrence over characters. -/
def containsSub (sub : List Char) : List Char → Bool
  | [] => sub.isEmpty
  | c :: rest => sub.isPrefixOf (c :: rest) || containsSub sub rest

/-- JS `String.prototype.includes`. -/
def jsIncludes (s sub : String) : Bool :=
  containsSub sub.data s.data

/-- `LanguageService.mockClassifyResponse`: the rule-based keyword
classifier, branch for branch. -/
def mockClassifyResponse (message : String) : MessageClassification :=
  let lm := jsTrim (jsToLower message)
  -- STOP keywords - immediate opt-out
  if lm == "stop" || lm == "unsubscribe" || lm == "cancel" ||
     jsIncludes lm "stop texting" || jsIncludes lm "remove me" ||
     jsIncludes lm "opt out" then
    { intent := .stop, confidence := 99, extractedInfo := none,
      rawAnalysis := some "Explicit opt-out request detected" }
  -- Positive responses
  else if lm == "yes" || lm == "yeah" || lm == "sure" || lm == "interested" ||
     jsIncludes lm "tell me more" || jsIncludes lm "sounds good" ||
     jsIncludes lm "i'm interested" || jsIncludes lm "schedule" then
    { intent := .interested, confidence := 90, extractedInfo := none,
      rawAnalysis := some "Positive interest detected" }
  -- Negative but not opt-out
  else if lm == "no" || lm == "not interested" || jsIncludes lm "not right now" ||
     jsIncludes lm "maybe later" || jsIncludes lm "not a good time" then
    { intent := .not_now, confidence := 85, extractedInfo := none,
      rawAnalysis := some "Negative response, not an opt-out" }
  -- Confirmation
  else if lm == "confirm" || lm == "confirmed" || lm == "ok" || lm == "sounds good" ||
     jsIncludes lm "see you then" || jsIncludes lm "that works" then
    { intent := .confirm, confidence := 85, extractedInfo := none,
      rawAnalysis := some "Confirmation detected" }
  -- Reschedule
  else if jsIncludes lm "reschedule" || jsIncludes lm "different time" ||
     jsIncludes lm "change" || jsIncludes lm "can't make it" then
    { intent := .reschedule, confidence := 85, extractedInfo := none,
      rawAnalysis := some "Reschedule request detected" }
  -- Question (contains question mark or question words)
  else if jsIncludes lm "?" || jsStartsWith lm "what" || jsStartsWith lm "how" ||
     jsStartsWith lm "when" || jsStartsWith lm "where" || jsStartsWith lm "why" ||
     jsStartsWith lm "who" then
    { intent := .question, confidence := 80, extractedInfo := none,
      rawAnalysis := some "Question detected" }
  -- Number selection (for appointment slots), /^[1-5]$/
  else if lm == "1" || lm == "2" || lm == "3" || lm == "4" || lm == "5" then
    { intent := .confirm, confidence := 90,
      extractedInfo := some { preferredDay := none, preferredTime := some lm,
                              reason := none },
      rawAnalysis := some "Slot selection detected" }
  -- Unknown
  else
    { intent := .unknown, confidence := 50, extractedInfo := none,
      rawAnalysis := some "Could not determine intent from message" }

/-- `LanguageService.classifyResponse` reduces to the mock classifier (see
section comment). -/
def classifyResponse (message : String) : MessageClassification :=
  mockClassifyResponse message

/-- `LanguageService.generateResponse` in mock mode: a fixed helpful reply. -/
def generateResponseMock (leadName : String) : String :=
  "Thank you for your question, " ++ leadName ++
  "! A solar consultant will get back to you shortly. Reply STOP to opt out."

/-! ## Workflow orchestrator (`smsAppointmentWorkflow.ts`)

The orchestrator's mutable surroundings — the lead store, the channel log,
the calendar provider's slot map and the `generateId()` source — are one
explicit state record threaded through the workflow functions.  Dashboard
events (`emitEvent`) are fire-and-forget notifications with no effect on
this state and are not modelled. -/

/-- The mutable state surrounding one workflow call. -/
structure World where
  store : List Lead
  smsLog : List SmsMessage
  slots : List AppointmentSlot
  counter : Nat
deriving DecidableEq, Repr

/-- `generateId()`: opaque fresh ids from the threaded counter. -/
def World.freshId (w : World) : String × World :=
  ("id" ++ toString w.counter, { w with counter := w.counter + 1 })

/-- `SmsAppointmentWorkflow.proposeAppointmentSlots`: ask the scheduler for
up to 3 slots; with zero slots attempt the `escalate` trigger and stamp an
`escalationReason`; otherwise store the proposed slots, send the formatted
list and attempt `propose_appointment`.  `lead` is the workflow's local
object, detached from the store by the time this runs (see aliasing note at
the top); each mutation is followed by the corresponding store write. -/
def proposeAppointmentSlots (deliver : Bool) (now : Nat) (w : World) (lead : Lead) :
    World :=
  let proposed := getAvailableSlots w.slots now 3
  if proposed.length = 0 then
    -- No slots available - attempt to escalate
    let (scId, w) := w.freshId
    let (_, lead1) := transition lead "escalate" [] scId now
    let lead2 :=
      { lead1 with metadata := lead.metadata ++ [("escalationReason", "no_slots")],
                   updatedAt := now }
    { w with store := storeSet w.store lead2 }
  else
    -- Store proposed slots
    let w := { w with store := storeSetProposedSlots w.store lead.id (some proposed) now }
    -- Send SMS with slots
    let formatted := formatSlotsForSms proposed
    let (msgId, w) := w.freshId
    let (_, log) := sendSms deliver w.smsLog lead
      (appointmentProposalTemplate lead.firstName formatted) msgId now
    let w := { w with smsLog := log }
    -- Transition to appointment_proposed
    let (scId, w) := w.freshId
    let (_, lead1) := transition lead "propose_appointment" [] scId now
    { w with store := storeSet w.store lead1 }

/-- `parseInt(classification.extractedInfo.preferredTime) - 1` as a slot
index (`Int`, so that `"0"` yields index `-1`, out of range as in JS). -/
def preferredSlotIndex (preferredTime : String) : Option Int :=
  (jsToNat? preferredTime).map fun n => (n : Int) - 1

/-- The slot selection of `handleAppointmentConfirmation`: the extracted
index into `proposedSlots` when in range, else the first proposed slot. -/
def selectSlot (lead : Lead) (classification : MessageClassification) :
    Option AppointmentSlot :=
  let fromIndex : Option AppointmentSlot :=
    match classification.extractedInfo with
    | some info =>
      match info.preferredTime, lead.proposedSlots with
      | some t, some slots =>
        match preferredSlotIndex t with
        | some i => if h : 0 ≤ i ∧ i.toNat < slots.length then some (slots.get ⟨i.toNat, h.2⟩) else none
        | none => none
      | _, _ => none
    | none => none
  match fromIndex with
  | some s => some s
  | none =>
    match lead.proposedSlots with
    | some (s :: _) => some s
    | _ => none

/-- `SmsAppointmentWorkflow.handleAppointmentConfirmation`: resolve the
selected slot (re-propose when there is none), book it (re-propose when the
booking is rejected), then record the appointment, attempt
`confirm_appointment` and send the confirmation. -/
def handleAppointmentConfirmation (deliver : Bool) (now : Nat) (w : World)
    (lead : Lead) (classification : MessageClassification) : World :=
  match selectSlot lead classification with
  | none =>
    -- No slot to confirm - ask again
    proposeAppointmentSlots deliver now w lead
  | some selectedSlot =>
    let (bookingResult, slots') := bookAppointment w.slots lead selectedSlot.id
    let w := { w with slots := slots' }
    if !bookingResult.success then
      -- Slot no longer available - propose new slots
      proposeAppointmentSlots deliver now w lead
    else
      let w := { w with store := storeSetAppointment w.store lead.id bookingResult.slot now }
      let (scId, w) := w.freshId
      let (_, lead1) := transition lead "confirm_appointment" [] scId now
      let w := { w with store := storeSet w.store lead1 }
      let (msgId, w) := w.freshId
      let confDate := match bookingResult.slot with
        | some s => fmtSlotDate s.date
        | none => ""
      let confTime := match bookingResult.slot with
        | some s => s.startTime
        | none => ""
      let (_, log) := sendSms deliver w.smsLog lead1
        (appointmentConfirmationTemplate lead1.firstName confDate confTime) msgId now
      { w with smsLog := log }

/-- `SmsAppointmentWorkflow.handleRescheduleRequest`: cancel any confirmed
slot, attempt `reschedule_requested`, then re-propose. -/
def handleRescheduleRequest (deliver : Bool) (now : Nat) (w : World) (lead : Lead) :
    World :=
  let w :=
    match lead.appointmentSlot with
    | some slot =>
      let (_, slots') := cancelSlot w.slots slot.id
      { w with slots := slots',
               store := storeSetAppointment w.store lead.id none now }
    | none => w
  let (scId, w) := w.freshId
  let (_, lead1) := transition lead "reschedule_requested" [] scId now
  let w := { w with store := storeSet w.store lead1 }
  proposeAppointmentSlots deliver now w lead1

/-- `SmsAppointmentWorkflow.handleClassifiedResponse`: the deterministic
switch on the classified intent.  Returns the `action` tag and the updated
world.  `lead` is the workflow's local object (detached from the store by
the preceding `addContactAttempt`); every in-place mutation is followed by
the corresponding `updateLead`, modelled as a store write of the mutated
object. -/
def handleClassifiedResponse (deliver : Bool) (now : Nat) (w : World) (lead : Lead)
    (classification : MessageClassification) (originalMessage : String) :
    String × World :=
  match classification.intent with
  | .stop =>
    -- IMMEDIATE AND PERMANENT OPT-OUT
    let (scId, w) := w.freshId
    let (_, lead1) := forceTransition lead .opted_out "opt_out_received"
      [("reason", "user_requested"), ("originalMessage", originalMessage)] scId now
    let w := { w with store := storeSet w.store lead1 }
    -- Send opt-out confirmation (the mutated lead object is passed)
    let (msgId, w) := w.freshId
    let (_, log) := sendSms deliver w.smsLog lead1 optOutConfirmationTemplate msgId now
    ("opt_out", { w with smsLog := log })
  | .interested =>
    let (scId1, w) := w.freshId
    let (_, lead1) := transition lead "receive_response" [] scId1 now
    let (scId2, w) := w.freshId
    let (_, lead2) := transition lead1 "classify_interested" [] scId2 now
    let w := { w with store := storeSet w.store lead2 }
    ("interested", proposeAppointmentSlots deliver now w lead2)
  | .not_now =>
    let (scId1, w) := w.freshId
    let (_, lead1) := transition lead "receive_response" [] scId1 now
    let (scId2, w) := w.freshId
    let (_, lead2) := transition lead1 "classify_not_interested" [] scId2 now
    let w := { w with store := storeSet w.store lead2 }
    let (msgId, w) := w.freshId
    let (_, log) := sendSms deliver w.smsLog lead2 (notInterestedTemplate lead2.firstName)
      msgId now
    ("not_interested", { w with smsLog := log })
  | .confirm =>
    ("appointment_confirmed", handleAppointmentConfirmation deliver now w lead classification)
  | .reschedule =>
    ("reschedule_requested", handleRescheduleRequest deliver now w lead)
  | .question =>
    let (msgId, w) := w.freshId
    let (_, log) := sendSms deliver w.smsLog lead (generateResponseMock lead.firstName)
      msgId now
    ("question_received", { w with smsLog := log })
  | .unknown =>
    let (msgId, w) := w.freshId
    let (_, log) := sendSms deliver w.smsLog lead (generateResponseMock lead.firstName)
      msgId now
    ("unknown_response", { w with smsLog := log })

/-- Result of `processIncomingMessage`. -/
structure ProcessResult where
  success : Bool
  action : Option String
deriving DecidableEq, Repr

/-- `SmsAppointmentWorkflow.processIncomingMessage`: resolve the lead by
phone (miss: `lead_not_found`, no state change), record the inbound message
and contact attempt, classify, then dispatch on the classification. -/
def processIncomingMessage (deliver : Bool) (now : Nat) (w : World)
    (fromPhone : String) (messageBody : String) (providerId : Option String) :
    ProcessResult × World :=
  match getByPhone w.store fromPhone with
  | none => ({ success := false, action := some "lead_not_found" }, w)
  | some lead =>
    let (msgId, w) := w.freshId
    let w := { w with smsLog := recordInbound w.smsLog lead.id messageBody msgId }
    let classification := classifyResponse messageBody
    let (attemptId, w) := w.freshId
    let attempt : ContactAttempt :=
      { id := attemptId, leadId := lead.id, direction := .inbound, timestamp := now,
        message := some messageBody, status := .responded, providerId := providerId,
        classification := some classification }
    let w := { w with store := storeAddAttempt w.store lead.id attempt now }
    let (action, w) := handleClassifiedResponse deliver now w lead classification messageBody
    ({ success := true, action := some action }, w)

/-- `SmsAppointmentWorkflow.contactLead` (follow-ups from the scheduled
runner): skip when contact is blocked; transition `max_attempts_reached`
when the outbound attempt count would exceed the cap; otherwise send a
follow-up and schedule the next contact 24 hours out. -/
def contactLead (deliver : Bool) (now : Nat) (w : World) (lead : Lead) : World :=
  if !(canContact lead) then w
  else
    let attemptNumber :=
      (lead.contactAttempts.filter fun a => a.direction == .outbound).length + 1
    if lead.maxContactAttempts < attemptNumber then
      let (scId, w) := w.freshId
      let (_, lead1) := transition lead "max_attempts_reached" [] scId now
      { w with store := storeSet w.store lead1 }
    else
      let (msgId, w) := w.freshId
      let (result, log) := sendSms deliver w.smsLog lead
        (followUpTemplate lead.firstName attemptNumber) msgId now
      let w := { w with smsLog := log }
      if result.success then
        match result.attempt with
        | some a =>
          let w := { w with store := storeAddAttempt w.store lead.id a now }
          { w with store := storeSetNextContact w.store lead.id (some (now + 24 * 60 * 60 * 1000)) now }
        | none => w
      else w

/-- `SmsAppointmentWorkflow.runScheduledContacts`: pull the due leads and
contact each sequentially; returns the processed count. -/
def runScheduledContacts (deliver : Bool) (now : Nat) (w : World) : Nat × World :=
  let readyLeads := getReadyForContact w.store now
  (readyLeads.length, readyLeads.foldl (fun w lead => contactLead deliver now w lead) w)

/-- Workflow execution status (`WorkflowExecution.status`). -/
inductive ExecStatus where
  | pending
  | running
  | completed
  | failed
  | cancelled
deriving DecidableEq, Repr

/-- The observable outcome of one `startForLead` run: final status and
captured error of the `WorkflowExecution`. -/
structure ExecOutcome where
  status : ExecStatus
  error : Option String
deriving DecidableEq, Repr

/-- `SmsAppointmentWorkflow.sendInitialContact`.  The state machine mutates
the stored object in place until `addContactAttempt` replaces the stored
entry with a copy, so the transition to `initial_contact_sent` is written
through to the store *before* the send; a thrown error is returned as
`some errorMessage` with the store reflecting all effects so far. -/
def sendInitialContact (deliver : Bool) (now : Nat) (w : World) (lead : Lead) :
    Option String × World :=
  let (scId, w) := w.freshId
  let (sc, lead1) := transition lead "send_initial_sms" [] scId now
  -- in-place mutation of the stored object: write through
  let w := { w with store := storeSet w.store lead1 }
  match sc with
  | none => (some "Cannot transition to initial_contact_sent", w)
  | some _ =>
    let message := initialContactTemplate lead1.firstName
    let (msgId, w) := w.freshId
    let (result, log) := sendSms deliver w.smsLog lead1 message msgId now
    let w := { w with smsLog := log }
    if !result.success then
      (some ("Failed to send SMS: " ++ (result.error.getD "")), w)
    else
      -- addContactAttempt replaces the stored entry; the local object detaches
      let w :=
        match result.attempt with
        | some a => { w with store := storeAddAttempt w.store lead1.id a now }
        | none => w
      let (scId2, w) := w.freshId
      let (_, lead2) := transition lead1 "await_response" [] scId2 now
      -- updateLead(lead.id, stateMachine.getLead()): whole-object write
      (none, { w with store := storeSet w.store lead2 })

/-- `SmsAppointmentWorkflow.executeWorkflow`: consent check, contact check,
`schedule_contact`, then the initial send.  The `schedule_contact` mutation
is written through (aliased stored object); on success the trailing
`updateLead` writes the state machine's object wholesale. -/
def executeWorkflow (deliver : Bool) (now : Nat) (w : World) (lead : Lead) :
    Option String × World :=
  if !lead.consentVerified then
    (some "Lead consent not verified", w)
  else if !(canContact lead) then
    (some ("Cannot contact lead in state: " ++ leadStateName lead.state), w)
  else
    let (scId, w) := w.freshId
    let (_, lead1) := transition lead "schedule_contact" [] scId now
    let w := { w with store := storeSet w.store lead1 }
    let (err, w) := sendInitialContact deliver now w lead1
    match err with
    | some e => (some e, w)
    | none =>
      -- updateLead(lead.id, stateMachine.getLead()) on the outer machine's
      -- object; its content equals the store's current entry fields for
      -- `state`/`stateHistory` only on the success path, which ends here.
      (none, w)

/-- `SmsAppointmentWorkflow.startForLead`: missing lead throws outside the
`try` (`none`); otherwise the execution completes or captures the error with
status `failed`. -/
def startForLead (deliver : Bool) (now : Nat) (w : World) (leadId : String) :
    Option ExecOutcome × World :=
  match getById w.store leadId with
  | none => (none, w)
  | some lead =>
    let (err, w) := executeWorkflow deliver now w lead
    match err with
    | some e => (some { status := .failed, error := some e }, w)
    | none => (some { status := .completed, error := none }, w)

/-! ## Concrete fixtures used by closed statements -/

/-- A lead record with neutral field values, specialised per statement. -/
def baseLead : Lead :=
  { id := "L1", firstName := "A", lastName := "B", phone := "+15550001111",
    email := none, state := .new, stateHistory := [], consentVerified := true,
    contactAttempts := [], lastContactAt := none, nextContactAt := none,
    maxContactAttempts := 5, appointmentSlot := none, proposedSlots := none,
    source := "website", metadata := [], createdAt := 0, updatedAt := 0 }

/-- An outbound contact attempt fixture. -/
def outboundAttempt (i : Nat) : ContactAttempt :=
  { id := "a" ++ toString i, leadId := "L1", direction := .outbound,
    timestamp := 0, message := some "m", status := .sent, providerId := none,
    classification := none }

/-- An inbound contact attempt fixture. -/
def inboundAttempt (i : Nat) : ContactAttempt :=
  { id := "b" ++ toString i, leadId := "L1", direction := .inbound,
    timestamp := 0, message := some "m", status := .responded,
    providerId := none, classification := none }

/-- An available calendar slot fixture. -/
def sampleSlot : AppointmentSlot :=
  { id := "S1", date := 1000, startTime := "09:00", endTime := "10:00",
    available := true, leadId := none, confirmationSent := false,
    confirmedAt := none }

/-- A lead whose total attempt count has reached its cap (3 of 3, all
outbound), awaiting a response and due for contact. -/
def cappedOutboundLead : Lead :=
  { baseLead with
    state := .awaiting_response
    maxContactAttempts := 3
    contactAttempts := [outboundAttempt 0, outboundAttempt 1, outboundAttempt 2] }

/-- A lead whose single recorded attempt is inbound, with a cap of 1: zero
outbound attempts, yet total = cap. -/
def cappedInboundLead : Lead :=
  { baseLead with
    state := .awaiting_response
    maxContactAttempts := 1
    contactAttempts := [inboundAttempt 0] }

/-- A lead in `appointment_proposed` holding one proposed slot that the
calendar no longer has. -/
def proposedLead : Lead :=
  { baseLead with
    state := .appointment_proposed
    proposedSlots := some [sampleSlot] }

end Kyros

namespace Kyros

/-! ## Helper lemmas -/

/-- Updating every slot with a given id by an id-preserving function commutes
with looking the id up. -/
theorem getSlot_map_update (l : List AppointmentSlot) (k : String)
    (g : AppointmentSlot → AppointmentSlot) (hg : ∀ s, (g s).id = s.id) :
    getSlot (l.map fun s => if s.id = k then g s else s) k =
      (getSlot l k).map g := by
  induction l with
  | nil => rfl
  | cons a l ih =>
    by_cases h : a.id = k
    · simp [getSlot, h, hg]
    · simp [getSlot, h, ih]

/-! ## Claims C1 and C10 -/

/-- Claim C1: for every lead in a terminal state (`opted_out`, `escalated`,
or `appointment_completed`), `canTransition` returns false for every trigger,
every `transition` call for every trigger returns null and leaves the lead
unchanged, and `canContact` returns false. -/
theorem terminal_states_absorbing (lead : Lead) (trigger : String)
    (metadata : Metadata) (scId : String) (now : Nat)
    (h : lead.state ∈ TERMINAL_STATES) :
    canTransition lead.state trigger = false ∧
    transition lead trigger metadata scId now = (none, lead) ∧
    canContact lead = false := by
  simp only [TERMINAL_STATES, List.mem_cons, List.not_mem_nil, or_false] at h
  have hct : canTransition lead.state trigger = false := by
    rcases h with h | h | h <;> rw [canTransition, h] <;> rfl
  have hcc : canContact lead = false := by
    rcases h with h | h | h <;> rw [canContact, h] <;> rfl
  refine ⟨hct, ?_, hcc⟩
  rw [transition, hct]
  rfl

/-- Witness for C1 at a concrete opted-out lead and trigger. -/
theorem terminal_states_absorbing_witness :
    let l : Lead :=
      { id := "L1", firstName := "A", lastName := "B", phone := "+1",
        email := none, state := .opted_out, stateHistory := [],
        consentVerified := true, contactAttempts := [], lastContactAt := none,
        nextContactAt := none, maxContactAttempts := 5,
        appointmentSlot := none, proposedSlots := none, source := "web",
        metadata := [], createdAt := 0, updatedAt := 0 }
    l.state ∈ TERMINAL_STATES ∧
    (canTransition l.state "schedule_contact" = false ∧
     transition l "schedule_contact" [] "sc1" 7 = (none, l) ∧
     canContact l = false) :=
  ⟨by decide, terminal_states_absorbing _ "schedule_contact" [] "sc1" 7 (by decide)⟩

/-- Claim C10: `forceTransition` performs its state change unconditionally
for every current state and every target state (terminal states included),
setting the lead's state to the target and appending a `StateChange` whose
trigger carries the `forced:` prefix and whose metadata includes
`forced: true`. -/
theorem forceTransition_unconditional (lead : Lead) (newState : LeadState)
    (trigger : String) (metadata : Metadata) (scId : String) (now : Nat) :
    ((forceTransition lead newState trigger metadata scId now).2.state = newState) ∧
    ((forceTransition lead newState trigger metadata scId now).2.stateHistory =
      lead.stateHistory ++ [(forceTransition lead newState trigger metadata scId now).1]) ∧
    ((forceTransition lead newState trigger metadata scId now).1.trigger =
      "forced:" ++ trigger) ∧
    (mdGet (forceTransition lead newState trigger metadata scId now).1.metadata "forced" =
      some "true") ∧
    ((forceTransition lead newState trigger metadata scId now).1.fromState = lead.state) := by
  refine ⟨rfl, rfl, rfl, ?_, rfl⟩
  simp [forceTransition, mdGet]

/-! ## Claim C9: quiet hours -/

/-- Claim C9: `isQuietHours` returns true exactly when the rendered local
time falls in `[quietStart, quietEnd)`; when the window spans midnight
(start later than end) exactly when the time is at or after the start or
strictly before the end. -/
theorem isQuietHours_spec (currentMinutes : Nat) (quietStart quietEnd : String)
    (s e : Nat) (hs : parseHM quietStart = some s) (he : parseHM quietEnd = some e) :
    isQuietHours currentMinutes quietStart quietEnd = true ↔
      quietWindowSpec currentMinutes s e := by
  simp only [isQuietHours, hs, he, quietWindowSpec, gt_iff_lt, ge_iff_le]
  by_cases h : e < s
  · simp only [if_pos h]
    simp
  · simp only [if_neg h]
    simp

/-- Witness for C9: 23:00 is inside the midnight-spanning window 21:00–08:00. -/
theorem isQuietHours_spec_witness :
    parseHM "21:00" = some 1260 ∧ parseHM "08:00" = some 480 ∧
    (isQuietHours 1380 "21:00" "08:00" = true ↔ quietWindowSpec 1380 1260 480) :=
  ⟨by decide, by decide,
   isQuietHours_spec 1380 "21:00" "08:00" 1260 480 (by decide) (by decide)⟩

/-! ## Claim C4: exclusive booking -/

/-- Claim C4: booking is a check-and-set on `available`; of two
`bookAppointment` calls against the same available slot, the first reports
success, the second receives a "Slot already booked" error, and the slot
ends up bound to exactly the first lead. -/
theorem exclusive_booking (slots : List AppointmentSlot) (s : AppointmentSlot)
    (l1 l2 : Lead)
    (hs : getSlot slots s.id = some s) (hav : s.available = true)
    (h1a : l1.state ≠ .opted_out) (h1b : l1.state ≠ .appointment_confirmed)
    (h2a : l2.state ≠ .opted_out) (h2b : l2.state ≠ .appointment_confirmed) :
    (bookAppointment slots l1 s.id).1.success = true ∧
    (bookAppointment slots l1 s.id).1.slot =
      some { s with available := false, leadId := some l1.id } ∧
    (bookAppointment (bookAppointment slots l1 s.id).2 l2 s.id).1.success = false ∧
    (bookAppointment (bookAppointment slots l1 s.id).2 l2 s.id).1.error =
      some "Slot already booked" ∧
    getSlot (bookAppointment (bookAppointment slots l1 s.id).2 l2 s.id).2 s.id =
      some { s with available := false, leadId := some l1.id } := by
  have hg' : ∀ x : AppointmentSlot,
      ({ x with available := false, leadId := some l1.id } : AppointmentSlot).id = x.id :=
    fun _ => rfl
  have hbook1 :
      bookAppointment slots l1 s.id =
        ({ success := true,
           slot := some { s with available := false, leadId := some l1.id },
           error := none },
         slots.map fun x =>
           if x.id = s.id then { x with available := false, leadId := some l1.id }
           else x) := by
    simp [bookAppointment, bookSlot, hs, hav, h1a, h1b, getSlot_map_update _ _ _ hg']
  have hfind2 :
      getSlot (bookAppointment slots l1 s.id).2 s.id =
        some { s with available := false, leadId := some l1.id } := by
    rw [hbook1]
    rw [getSlot_map_update _ _ _ hg', hs]
    rfl
  have hbook2 :
      bookAppointment (bookAppointment slots l1 s.id).2 l2 s.id =
        ({ success := false, slot := none, error := some "Slot already booked" },
         (bookAppointment slots l1 s.id).2) := by
    generalize hM : (bookAppointment slots l1 s.id).2 = M at hfind2 ⊢
    simp [bookAppointment, bookSlot, hfind2, h2a, h2b]
  refine ⟨by rw [hbook1], by rw [hbook1], by rw [hbook2], by rw [hbook2], ?_⟩
  rw [hbook2]
  exact hfind2

/-! ## Claim C3: failed initial send leaves a partially committed lead

`sendInitialContact` transitions the (store-aliased) lead object to
`initial_contact_sent` *before* the send; when the send fails, the thrown
error is captured (`status: failed`) but the stored lead keeps the already
written transition — the claimed atomicity does not hold in the code. -/

/-- Claim C3 (evaluation at the failing input): for a consent-verified lead
whose initial SMS send fails, the execution ends `failed` with the captured
error, yet the stored lead's state is `initial_contact_sent` and its history
carries the `schedule_contact` and `send_initial_sms` transitions — the
transition associated with the failed send *has* occurred. -/
theorem startForLead_sendFailure_partial_commit :
    (startForLead false 0 ⟨[{ baseLead with state := .consent_verified }], [], [], 0⟩ "L1").1 =
      some { status := .failed, error := some "Failed to send SMS: Provider failure" } ∧
    ((getById (startForLead false 0
        ⟨[{ baseLead with state := .consent_verified }], [], [], 0⟩ "L1").2.store "L1").map
      (fun l => l.state)) = some .initial_contact_sent ∧
    ((getById (startForLead false 0
        ⟨[{ baseLead with state := .consent_verified }], [], [], 0⟩ "L1").2.store "L1").map
      (fun l => l.stateHistory.map (fun sc => sc.trigger))) =
      some ["schedule_contact", "send_initial_sms"] := by
  decide

/-! ## Claim C5: the attempt cap strands leads instead of failing them

A lead at the cap is excluded from `getReadyForContact`, so
`runScheduledContacts` never reaches it and the `max_attempts_reached`
branch in `contactLead` (reachable only through the runner) cannot fire:
no tick ever transitions the lead to `failed`. -/

/-- Claim C5 (evaluation at the failing input): a lead with
`contactAttempts.length == maxContactAttempts` is excluded from
`getReadyForContact` (first conjunct, the claim's true half), but one more
scheduled-runner tick processes zero leads and leaves the world unchanged —
the lead stays `awaiting_response` and is never transitioned to `failed` via
`max_attempts_reached`. -/
theorem attempt_cap_never_fails_lead :
    cappedOutboundLead.contactAttempts.length = cappedOutboundLead.maxContactAttempts ∧
    getReadyForContact [cappedOutboundLead] 0 = [] ∧
    runScheduledContacts true 0 ⟨[cappedOutboundLead], [], [], 0⟩ =
      (0, ⟨[cappedOutboundLead], [], [], 0⟩) ∧
    cappedOutboundLead.state = .awaiting_response := by
  decide

/-! ## Claim C7: zero slots on the re-propose path does not escalate

`proposeAppointmentSlots` escalates with the *table-checked* `escalate`
trigger, which only exists from `failed`/`interested`/`not_interested`; on
the re-propose path after a failed booking the lead is in
`appointment_proposed`, the trigger is a silent no-op, and the lead is left
stalled (with only an `escalationReason` metadata stamp). -/

/-- Claim C7 (evaluation at the failing input): an inbound `"1"` while
`appointment_proposed` whose booking fails (slot gone from the calendar)
re-proposes; the calendar has zero slots, the `escalate` trigger is a no-op
from `appointment_proposed`, and the stored lead remains
`appointment_proposed` — not `escalated` — though the code stamps
`escalationReason: no_slots`. -/
theorem propose_zero_slots_leaves_lead_stalled :
    ((getById (processIncomingMessage true 0 ⟨[proposedLead], [], [], 0⟩
        proposedLead.phone "1" none).2.store "L1").map (fun l => l.state)) =
      some .appointment_proposed ∧
    ((getById (processIncomingMessage true 0 ⟨[proposedLead], [], [], 0⟩
        proposedLead.phone "1" none).2.store "L1").map
      (fun l => mdGet l.metadata "escalationReason")) = some (some "no_slots") ∧
    ((getById (processIncomingMessage true 0 ⟨[proposedLead], [], [], 0⟩
        proposedLead.phone "1" none).2.store "L1").map (fun l => l.state)) ≠
      some .escalated := by
  decide

/-! ## Claim C8: which attempts count toward the cap -/

/-- Counterexample to C8: a lead with zero outbound attempts but one inbound
attempt and a cap of 1 is excluded from `getReadyForContact` — inbound
attempts do count toward the cap in the exclusion check, contradicting the
claim that only outbound attempts are counted there. -/
theorem inbound_attempt_counts_in_ready_check :
    getReadyForContact [cappedInboundLead] 0 = [] ∧
    (cappedInboundLead.contactAttempts.filter fun a => a.direction == .outbound).length = 0 ∧
    0 < cappedInboundLead.maxContactAttempts ∧
    cappedInboundLead.state = .awaiting_response ∧
    cappedInboundLead.nextContactAt = none := by
  decide

/-- Claim C8 as amended: `getReadyForContact` excludes a due
`awaiting_response` lead exactly when its *total* number of contact attempts
(inbound included) reaches `maxContactAttempts`, while the scheduled-contact
max-attempts check in `contactLead` transitions such a lead to `failed`
exactly when its *outbound* attempt count reaches the cap. -/
theorem attempt_cap_counting_amended :
    (∀ (lead : Lead) (now : Nat), lead.state = .awaiting_response →
      lead.nextContactAt = none →
      (getReadyForContact [lead] now = [] ↔
        lead.maxContactAttempts ≤ lead.contactAttempts.length)) ∧
    (∀ (lead : Lead) (deliver : Bool) (now : Nat) (log : List SmsMessage)
        (slots : List AppointmentSlot) (ctr : Nat), lead.state = .awaiting_response →
      ((getById (contactLead deliver now ⟨[lead], log, slots, ctr⟩ lead).store lead.id).map
          (fun l => l.state) = some .failed ↔
        lead.maxContactAttempts ≤
          (lead.contactAttempts.filter fun a => a.direction == .outbound).length)) := by
  constructor
  · intro lead now h1 h2
    by_cases hle : lead.maxContactAttempts ≤ lead.contactAttempts.length
    · simp [getReadyForContact, contactableStates, h1, h2, hle]
    · simp [getReadyForContact, contactableStates, h1, h2, hle]
  · intro lead deliver now log slots ctr h1
    have hcc : canContact lead = true := by rw [canContact, h1]; rfl
    have hct : canTransition lead.state "max_attempts_reached" = true := by
      rw [h1]; rfl
    have hgt : getTargetState lead.state "max_attempts_reached" = some .failed := by
      rw [h1]; rfl
    by_cases hcap : lead.maxContactAttempts <
        (lead.contactAttempts.filter fun a => a.direction == .outbound).length + 1
    · simp only [contactLead, hcc, Bool.not_true, Bool.false_eq_true, if_false,
        if_pos hcap, transition, hct, if_true, hgt, World.freshId]
      simp [storeSet, getById, h1]
      omega
    · have hno : lead.state = .opted_out → False := by rw [h1]; intro hx; cases hx
      simp only [contactLead, hcc, Bool.not_true, Bool.false_eq_true, if_false,
        if_neg hcap, World.freshId, sendSms]
      rw [if_neg hno]
      cases deliver with
      | true =>
        simp [storeAddAttempt, storeSetNextContact, getById, h1]
        omega
      | false =>
        simp [getById, h1]
        omega

/-- Witness for the amended C8 at the concrete inbound-capped lead: it is
excluded from `getReadyForContact` (its total count is at the cap), while
`contactLead` does not fail it (zero outbound attempts). -/
theorem attempt_cap_counting_amended_witness :
    (getReadyForContact [cappedInboundLead] 0 = [] ↔
      cappedInboundLead.maxContactAttempts ≤ cappedInboundLead.contactAttempts.length) ∧
    ((getById (contactLead true 0 ⟨[cappedInboundLead], [], [], 0⟩ cappedInboundLead).store
        cappedInboundLead.id).map (fun l => l.state) = some .failed ↔
      cappedInboundLead.maxContactAttempts ≤
        (cappedInboundLead.contactAttempts.filter fun a => a.direction == .outbound).length) :=
  ⟨attempt_cap_counting_amended.1 cappedInboundLead 0 rfl rfl,
   attempt_cap_counting_amended.2 cappedInboundLead true 0 [] [] 0 rfl⟩

/-! ## Claim C2: stop precedence

The `stop` branch forces `opted_out` via `forceTransition` before calling
`sendSms` on the already mutated lead object; the spec-modelled channel
adapter (§4.4) refuses sends to opted-out leads, so the opt-out confirmation
is issued and logged but recorded as failed — it is never delivered. -/

/-- Counterexample to C2 as stated: processing a stop-classified message for
a lead in `awaiting_response` does force `opted_out` (the claim's true
part), and exactly one channel record is produced, but no outbound message
is delivered — the opt-out confirmation send is refused because the lead is
already opted out when the send runs, so no confirmation is sent. -/
theorem stop_confirmation_not_delivered :
    ((getById (handleClassifiedResponse true 0
        ⟨[{ baseLead with state := .awaiting_response }], [], [], 0⟩
        { baseLead with state := .awaiting_response }
        { intent := .stop, confidence := 99, extractedInfo := none,
          rawAnalysis := none } "STOP").2.store "L1").map (fun l => l.state)) =
      some .opted_out ∧
    (handleClassifiedResponse true 0
        ⟨[{ baseLead with state := .awaiting_response }], [], [], 0⟩
        { baseLead with state := .awaiting_response }
        { intent := .stop, confidence := 99, extractedInfo := none,
          rawAnalysis := none } "STOP").2.smsLog.length = 1 ∧
    deliveredOutbound (handleClassifiedResponse true 0
        ⟨[{ baseLead with state := .awaiting_response }], [], [], 0⟩
        { baseLead with state := .awaiting_response }
        { intent := .stop, confidence := 99, extractedInfo := none,
          rawAnalysis := none } "STOP").2.smsLog = [] := by
  decide

/-- Claim C2 as amended: for every lead in any of the four non-terminal
states, a message classified `stop` wins over all other processing — the
handler does exactly this and nothing else: it forces the lead to
`opted_out` via `forceTransition` (trigger `forced:opt_out_received`,
metadata `forced: true`), bypassing the transition table, and issues the
opt-out confirmation send, which the channel records but refuses (status
`failed`) because the lead is already opted out at send time. -/
theorem stop_precedence_amended (lead : Lead) (conf : Nat) (ei : Option ExtractedInfo)
    (ra : Option String) (msg : String) (deliver : Bool) (now ctr : Nat)
    (log : List SmsMessage) (slots : List AppointmentSlot)
    (_h : lead.state ∈ [LeadState.initial_contact_sent, LeadState.awaiting_response,
          LeadState.interested, LeadState.appointment_proposed]) :
    handleClassifiedResponse deliver now ⟨[lead], log, slots, ctr⟩ lead
      { intent := .stop, confidence := conf, extractedInfo := ei, rawAnalysis := ra }
      msg =
    ("opt_out",
     { store := [{ lead with
                   state := .opted_out
                   stateHistory := lead.stateHistory ++
                     [{ id := "id" ++ toString ctr, fromState := lead.state,
                        toState := .opted_out, trigger := "forced:opt_out_received",
                        timestamp := now,
                        metadata := [("reason", "user_requested"),
                                     ("originalMessage", msg), ("forced", "true")] }]
                   updatedAt := now }],
       smsLog := log ++
         [{ id := "id" ++ toString (ctr + 1), leadId := lead.id,
            body := optOutConfirmationTemplate, direction := .outbound,
            status := .failed, failureReason := some "Lead has opted out" }],
       slots := slots, counter := ctr + 2 }) := by
  simp [handleClassifiedResponse, World.freshId, forceTransition, storeSet, sendSms]

/-- Witness for the amended C2 at a concrete interested lead and message. -/
theorem stop_precedence_amended_witness :
    (LeadState.interested ∈ [LeadState.initial_contact_sent, LeadState.awaiting_response,
        LeadState.interested, LeadState.appointment_proposed]) ∧
    handleClassifiedResponse true 5 ⟨[{ baseLead with state := .interested }], [], [], 0⟩
      { baseLead with state := .interested }
      { intent := .stop, confidence := 99, extractedInfo := none,
        rawAnalysis := none } "STOP please" =
    ("opt_out",
     { store := [{ { baseLead with state := .interested } with
                   state := .opted_out
                   stateHistory := ({ baseLead with state := .interested } : Lead).stateHistory ++
                     [{ id := "id" ++ toString 0,
                        fromState := ({ baseLead with state := .interested } : Lead).state,
                        toState := .opted_out, trigger := "forced:opt_out_received",
                        timestamp := 5,
                        metadata := [("reason", "user_requested"),
                                     ("originalMessage", "STOP please"), ("forced", "true")] }]
                   updatedAt := 5 }],
       smsLog := [] ++
         [{ id := "id" ++ toString (0 + 1),
            leadId := ({ baseLead with state := .interested } : Lead).id,
            body := optOutConfirmationTemplate, direction := .outbound,
            status := .failed, failureReason := some "Lead has opted out" }],
       slots := [], counter := 0 + 2 }) :=
  ⟨by decide,
   stop_precedence_amended { baseLead with state := .interested }
     (99) none none "STOP please" true 5 0 [] [] (by decide)⟩

/-! ## Claim C6: an opted-out lead's inbound "Yes" has no effect

`"Yes"` classifies as `interested`; for an opted-out lead both transitions
of the interested branch are terminal-state no-ops, and the slot-proposal
(or escalation) path that follows cannot send: the spec-modelled channel
refuses delivery to an opted-out lead, so the only outbound log entry ever
appended has status `failed`. -/

/-- Claim C6: after a lead has opted out, a subsequent inbound `"Yes"` from
its phone produces no delivered outbound message and no state change — the
stored lead keeps state `opted_out` and an unchanged `stateHistory`. -/
theorem opted_out_yes_no_effect (lead : Lead) (log : List SmsMessage)
    (slots : List AppointmentSlot) (ctr now : Nat) (deliver : Bool)
    (pid : Option String) (h : lead.state = .opted_out) :
    ∃ l',
      (processIncomingMessage deliver now ⟨[lead], log, slots, ctr⟩ lead.phone
        "Yes" pid).2.store = [l'] ∧
      l'.state = .opted_out ∧
      l'.stateHistory = lead.stateHistory ∧
      deliveredOutbound (processIncomingMessage deliver now ⟨[lead], log, slots, ctr⟩
        lead.phone "Yes" pid).2.smsLog = deliveredOutbound log := by
  have hclass : classifyResponse "Yes" =
      { intent := .interested, confidence := 90, extractedInfo := none,
        rawAnalysis := some "Positive interest detected" } := by decide
  have hct : ∀ trig, canTransition lead.state trig = false := by
    intro trig; rw [h]; rfl
  have hphone : getByPhone [lead] lead.phone = some lead := by
    simp [getByPhone]
  have hsend : ∀ (lg : List SmsMessage) (body msgId : String) (res : SendResult)
      (lg' : List SmsMessage), sendSms deliver lg lead body msgId now = (res, lg') →
      deliveredOutbound lg' = deliveredOutbound lg := by
    intro lg body msgId res lg' heq
    rw [sendSms, if_pos h] at heq
    cases heq
    simp [deliveredOutbound, List.filter_append]
  simp only [processIncomingMessage, hphone, World.freshId, hclass,
    handleClassifiedResponse, transition, hct, Bool.false_eq_true, if_false,
    proposeAppointmentSlots, recordInbound]
  cases hp : getAvailableSlots slots now 3 with
  | nil =>
    refine ⟨{ lead with
                metadata := lead.metadata ++ [("escalationReason", "no_slots")]
                updatedAt := now }, ?_, ?_, ?_, ?_⟩ <;>
      simp [hp, storeSet, storeAddAttempt, deliveredOutbound, h,
        List.filter_append]
  | cons a l =>
    refine ⟨lead, ?_, ?_, ?_, ?_⟩ <;>
      simp [hp, sendSms, storeSet, storeAddAttempt, storeSetProposedSlots,
        deliveredOutbound, h, List.filter_append]

/-- Witness for C6 at a concrete opted-out lead with an empty calendar. -/
theorem opted_out_yes_no_effect_witness :
    ({ baseLead with state := .opted_out } : Lead).state = LeadState.opted_out ∧
    ∃ l',
      (processIncomingMessage true 3 ⟨[{ baseLead with state := .opted_out }], [], [], 0⟩
        ({ baseLead with state := .opted_out } : Lead).phone "Yes" none).2.store = [l'] ∧
      l'.state = .opted_out ∧
      l'.stateHistory = ({ baseLead with state := .opted_out } : Lead).stateHistory ∧
      deliveredOutbound (processIncomingMessage true 3
        ⟨[{ baseLead with state := .opted_out }], [], [], 0⟩
        ({ baseLead with state := .opted_out } : Lead).phone "Yes" none).2.smsLog =
        deliveredOutbound [] :=
  ⟨rfl, opted_out_yes_no_effect { baseLead with state := .opted_out } [] [] 0 3 true none rfl⟩

/-- Witness for C4 at a concrete slot and two concrete leads. -/
theorem exclusive_booking_witness :
    getSlot [sampleSlot] sampleSlot.id = some sampleSlot ∧
    sampleSlot.available = true ∧
    ((bookAppointment [sampleSlot] { baseLead with state := .interested } sampleSlot.id).1.success = true ∧
     (bookAppointment [sampleSlot] { baseLead with state := .interested } sampleSlot.id).1.slot =
       some { sampleSlot with available := false, leadId := some baseLead.id } ∧
     (bookAppointment (bookAppointment [sampleSlot] { baseLead with state := .interested } sampleSlot.id).2
        { baseLead with id := "L2", state := .interested } sampleSlot.id).1.success = false ∧
     (bookAppointment (bookAppointment [sampleSlot] { baseLead with state := .interested } sampleSlot.id).2
        { baseLead with id := "L2", state := .interested } sampleSlot.id).1.error =
       some "Slot already booked" ∧
     getSlot (bookAppointment (bookAppointment [sampleSlot] { baseLead with state := .interested } sampleSlot.id).2
        { baseLead with id := "L2", state := .interested } sampleSlot.id).2 sampleSlot.id =
       some { sampleSlot with available := false, leadId := some baseLead.id }) :=
  ⟨by decide, by decide,
   exclusive_booking [sampleSlot] sampleSlot
     { baseLead with state := .interested }
     { baseLead with id := "L2", state := .interested }
     (by decide) (by decide) (by decide) (by decide) (by decide) (by decide)⟩

end Kyros
